import Mathlib

/-!
Verification of the consensus / market-prediction web application.

The development shallowly embeds the arithmetic and control flow of the
TypeScript sources:

* `ConsensusAnalyticsDashboard.tsx` — `calculateTechnicalIndicatorsFromHistorical`
* `landing.tsx` — `handlePredictionSubmit` (final decision, confidences),
  `generateModelComparison`, `generateVerificationDetails`
* `queryParser` (utils) — `extractAssetsFromQuery`, `mapSymbolToName`
* `api` services — `ftsoApi.getAllFeeds`, `ftsoApi.getFeedById`
* `moralisService` — `getTokenPrice`, `getHistoricalPrices`,
  `getMarketDataFeeds`, `createFallbackDataFeed`, `getBasePrice`

JavaScript numbers are modelled as rationals (`ℚ`); the single use of
`Math.sqrt` is modelled with `Real.sqrt`.  Each call to `Math.random()` is
modelled as an explicit parameter ranging over `[0, 1)`.  Network requests are
modelled by an `Except`-valued response parameter: `.ok` is a fulfilled
request, `.error` a network failure / rejected promise.
-/

/-- One point of a historical price series (`{ timestamp, value }` in the
source).  Timestamps are modelled as naturals; only `value` is ever used in
computations. -/
structure PricePoint where
  timestamp : ℕ
  value : ℚ
  deriving DecidableEq, Repr

/-- The `DataFeed` interface from `types/index.ts`. -/
structure DataFeed where
  feed_id : String
  name : String
  current_value : ℚ
  timestamp : ℕ
  trend : String
  historical : List PricePoint
  deriving DecidableEq, Repr

/-- The component state set by `setTechnicalIndicators` in
`ConsensusAnalyticsDashboard.tsx`.  `volumeChange` holds the numeric value the
source formats as a percent string; `rsi` holds the `Math.round`ed value. -/
structure TechnicalIndicators where
  rsi : ℤ
  macd : String
  ma50 : ℚ
  ma200 : ℚ
  bollingerUpper : ℝ
  bollingerLower : ℝ
  volumeChange : ℚ

/-- JavaScript `array.slice(-n)` for `n ≥ 1`: the last `n` elements (the whole
list when it is shorter than `n`). -/
def sliceLast (n : ℕ) (l : List α) : List α :=
  l.drop (l.length - n)

/-- JavaScript `historical[i]?.value || 0`. -/
def histValue (hist : List PricePoint) (i : ℕ) : ℚ :=
  ((hist.get? i).map (fun p => p.value)).getD 0

/-- The `priceChanges` array: `historical[i].value - historical[i-1].value`
for `i = 1 … length-1`. -/
def priceChangesOf (hist : List PricePoint) : List ℚ :=
  (List.range (hist.length - 1)).map (fun k => histValue hist (k + 1) - histValue hist k)

/-- Sum of the positive price changes (`gains` in the source). -/
def gainsOf (hist : List PricePoint) : ℚ :=
  ((priceChangesOf hist).filter (fun c => 0 < c)).sum

/-- Sum of the absolute values of the negative price changes (`losses`). -/
def lossesOf (hist : List PricePoint) : ℚ :=
  (((priceChangesOf hist).filter (fun c => c < 0)).map (fun c => |c|)).sum

/-- `avgGain = gains / historical.length || 0`.  The `|| 0` of the source is
the identity on rationals but is kept for fidelity. -/
def avgGainOf (hist : List PricePoint) : ℚ :=
  let g := gainsOf hist / (hist.length : ℚ)
  if g = 0 then 0 else g

/-- `avgLoss = losses / historical.length || 0.01`, the division-by-zero
guard. -/
def avgLossOf (hist : List PricePoint) : ℚ :=
  let l := lossesOf hist / (hist.length : ℚ)
  if l = 0 then 1 / 100 else l

/-- The raw (unrounded) RSI: `100 - (100 / (1 + rs))` with
`rs = avgGain / avgLoss`. -/
def rsiRawOf (hist : List PricePoint) : ℚ :=
  100 - 100 / (1 + avgGainOf hist / avgLossOf hist)

/-- `historical.slice(-Math.min(k, historical.length))` summed over `value`
and divided by `Math.min(k, historical.length)`; used for `ma50`/`ma200`. -/
def maOf (k : ℕ) (hist : List PricePoint) : ℚ :=
  ((sliceLast (min k hist.length) hist).map (fun d => d.value)).sum
    / ((min k hist.length : ℕ) : ℚ)

/-- The last (up to) 20 prices, `historical.slice(-20).map(d => d?.value || 0)`. -/
def pricesOf (hist : List PricePoint) : List ℚ :=
  (sliceLast 20 hist).map (fun d => d.value)

/-- Arithmetic mean of a list of rationals (`0` for the empty list, as in the
JavaScript `0/0 = NaN`-free paths exercised here the list is nonempty). -/
def listMean (l : List ℚ) : ℚ :=
  l.sum / (l.length : ℚ)

/-- Population variance: mean of the squared deviations from the mean. -/
def popVariance (l : List ℚ) : ℚ :=
  (l.map (fun p => (p - listMean l) ^ 2)).sum / (l.length : ℚ)

/-- `sma20` of the source: mean of the last (up to) 20 prices. -/
def sma20Of (hist : List PricePoint) : ℚ :=
  listMean (pricesOf hist)

/-- `variance` of the source: population variance of the last (up to) 20
prices. -/
def varianceOf (hist : List PricePoint) : ℚ :=
  popVariance (pricesOf hist)

/-- `shortMA`: the last 12 values summed and divided by the constant 12
(the source divides by 12 even when fewer than 12 points exist). -/
def shortMAOf (hist : List PricePoint) : ℚ :=
  ((sliceLast 12 hist).map (fun d => d.value)).sum / 12

/-- `longMA`: the last 26 values summed and divided by the constant 26. -/
def longMAOf (hist : List PricePoint) : ℚ :=
  ((sliceLast 26 hist).map (fun d => d.value)).sum / 26

/-- The MACD qualitative label from comparing `shortMA` and `longMA`. -/
def macdOf (hist : List PricePoint) : String :=
  if shortMAOf hist > longMAOf hist then "bullish"
  else if shortMAOf hist < longMAOf hist then "bearish"
  else "neutral"

/-- The simple moving average of period `k` as the specification words it:
the mean of the last `min k n` points of the series. -/
def specSimpleMovingAverage (k : ℕ) (l : List ℚ) : ℚ :=
  listMean (sliceLast (min k l.length) l)

/-- `calculateTechnicalIndicatorsFromHistorical` from
`ConsensusAnalyticsDashboard.tsx`.  `rVol` models the `Math.random()` call in
the `volumeChange` placeholder. -/
noncomputable def calculateTechnicalIndicatorsFromHistorical
    (feed : DataFeed) (rVol : ℚ) : TechnicalIndicators :=
  let historical := feed.historical
  if historical.length < 5 then
    { rsi := 50
      macd := "neutral"
      ma50 := feed.current_value
      ma200 := feed.current_value
      bollingerUpper := (feed.current_value : ℝ) * 1.05
      bollingerLower := (feed.current_value : ℝ) * 0.95
      volumeChange := 0 }
  else
    { rsi := round (rsiRawOf historical)
      macd := macdOf historical
      ma50 := maOf 50 historical
      ma200 := maOf 200 historical
      bollingerUpper := (sma20Of historical : ℝ) + Real.sqrt (varianceOf historical) * 2
      bollingerLower := (sma20Of historical : ℝ) - Real.sqrt (varianceOf historical) * 2
      volumeChange := rVol * 20 - 10 }

/-! ### `handlePredictionSubmit` and its helpers (`landing.tsx`) -/

/-- The fixed ordered set of decision labels of the specification. -/
def sixDecisionLabels : List String :=
  ["HIGHLY LIKELY", "LIKELY", "SOMEWHAT LIKELY", "UNCERTAIN", "SOMEWHAT UNLIKELY", "UNLIKELY"]

/-- The `decisions` array of the random fallback branch of
`handlePredictionSubmit`. -/
def decisionsPool : List String :=
  ["LIKELY", "SOMEWHAT LIKELY", "UNCERTAIN", "UNLIKELY", "HIGHLY LIKELY"]

/-- The `finalDecision` computation of `handlePredictionSubmit`
(`landing.tsx`, the block starting with `let finalDecision = "UNCERTAIN"`).
`rDec` models the `Math.random()` draw of the taken branch; out-of-range
indexing in the random branch yields the JavaScript `undefined`. -/
def finalDecision (trend : String) (hasPriceQuestion : Bool) (rDec : ℚ) : String :=
  if trend = "up" ∧ hasPriceQuestion = true then
    if rDec > 3 / 10 then "LIKELY" else "HIGHLY LIKELY"
  else if trend = "down" ∧ hasPriceQuestion = true then
    if rDec > 3 / 10 then "UNLIKELY" else "SOMEWHAT LIKELY"
  else
    ((decisionsPool.get? (⌊rDec * 5⌋).toNat).getD "undefined")

/-- The overall confidence, `0.6 + Math.random() * 0.35`. -/
def confidenceOf (r : ℚ) : ℚ :=
  6 / 10 + r * (35 / 100)

/-- One entry of `model_responses` in `generateVerificationDetails`
(the presentational `reasoning` and `evidence` strings are omitted). -/
structure ModelResponse where
  model : String
  decision : String
  confidence : ℚ
  deriving DecidableEq, Repr

/-- The verification object built by `generateVerificationDetails`
(the presentational `supporting_evidence` strings are omitted). -/
structure Verification where
  model_agreement : ℚ
  model_responses : List ModelResponse
  deriving DecidableEq, Repr

/-- `generateVerificationDetails(finalDecision, confidence, assetName, trend)`
from `landing.tsx`.  Each `Math.random()` appearing in a numeric field is an
explicit parameter; only fields carrying data (decision, confidence,
agreement) are modelled. -/
def generateVerificationDetails (finalDecision : String) (confidence : ℚ)
    (rAgree rDeep rGem rMist rQwq rLlama : ℚ) : Verification :=
  { model_agreement := confidence - 5 / 100 + rAgree * (1 / 10)
    model_responses :=
      [ ⟨"DeepSeek R1 Zero", finalDecision,
          confidence - 15 / 100 + rDeep * (3 / 10)⟩
      , ⟨"Gemini Flash Lite 2.0",
          if finalDecision = "LIKELY" then "SOMEWHAT LIKELY"
          else if finalDecision = "UNLIKELY" then "UNCERTAIN" else finalDecision,
          confidence - 2 / 10 + rGem * (25 / 100)⟩
      , ⟨"Mistral Small 3",
          if finalDecision = "HIGHLY LIKELY" then "LIKELY"
          else if finalDecision = "UNLIKELY" then "SOMEWHAT LIKELY" else "UNCERTAIN",
          confidence - 25 / 100 + rMist * (2 / 10)⟩
      , ⟨"QwQ 32B", finalDecision,
          confidence - 5 / 100 + rQwq * (15 / 100)⟩
      , ⟨"Llama 3.3 70B",
          if finalDecision = "LIKELY" then "HIGHLY LIKELY"
          else if finalDecision = "UNLIKELY" then "UNLIKELY" else finalDecision,
          confidence + rLlama * (15 / 100)⟩ ] }

/-- The `modelNames` array of `generateModelComparison`. -/
def comparisonModelNames : List String :=
  [ "TrendWatcher AI", "DeepMarket Analyzer", "Quantum Forecast"
  , "NeuralPrice Predictor", "OnChain Metrics AI", "MacroTrend Evaluator" ]

/-- The `predictions` array of `generateModelComparison`, selected by the
main decision. -/
def comparisonPredictions (decision : String) : List String :=
  if decision = "LIKELY" ∨ decision = "HIGHLY LIKELY" then
    ["LIKELY", "SOMEWHAT LIKELY", "HIGHLY LIKELY", "LIKELY", "UNCERTAIN", "LIKELY"]
  else if decision = "UNLIKELY" ∨ decision = "SOMEWHAT UNLIKELY" then
    ["UNLIKELY", "SOMEWHAT UNLIKELY", "UNCERTAIN", "UNLIKELY", "SOMEWHAT LIKELY", "UNLIKELY"]
  else
    ["UNCERTAIN", "SOMEWHAT LIKELY", "SOMEWHAT UNLIKELY", "UNCERTAIN", "LIKELY", "UNCERTAIN"]

/-- The `switch(decision)` assigning `baseConfidence` in
`generateModelComparison`. -/
def baseConfidenceOf (decision : String) : ℚ :=
  if decision = "HIGHLY LIKELY" then 85
  else if decision = "LIKELY" then 75
  else if decision = "SOMEWHAT LIKELY" then 65
  else if decision = "UNCERTAIN" then 50
  else if decision = "SOMEWHAT UNLIKELY" then 35
  else if decision = "UNLIKELY" then 25
  else 50

/-- One row of the model-comparison table (presentational `key_factor` and
`reasoning` strings omitted). -/
structure ModelComparisonItem where
  name : String
  prediction : String
  confidence : ℚ
  deriving DecidableEq, Repr

/-- `generateModelComparison(decision, asset, trend)` from `landing.tsx`.
`rComp i` models the `Math.random()` draw for the confidence variation of the
`i`-th model; the `asset`/`trend` arguments feed only presentational strings
and are omitted. -/
def generateModelComparison (decision : String) (rComp : ℕ → ℚ) :
    List ModelComparisonItem :=
  (List.range comparisonModelNames.length).map (fun index =>
    { name := (comparisonModelNames.get? index).getD "undefined"
      prediction := ((comparisonPredictions decision).get? index).getD "undefined"
      confidence :=
        min (max (baseConfidenceOf decision + (((⌊rComp index * 15⌋ - 7 : ℤ) : ℚ))) 10) 95 })

/-! ### Query parser (`utils/queryParser.ts`) -/

/-- The `commonAssets` array of `extractAssetsFromQuery`. -/
def commonAssets : List String :=
  [ "bitcoin", "btc", "ethereum", "eth", "solana", "sol", "cardano", "ada"
  , "binance coin", "bnb", "ripple", "xrp", "dogecoin", "doge", "polkadot", "dot"
  , "avalanche", "avax", "litecoin", "ltc", "chainlink", "link", "polygon", "matic"
  , "uniswap", "uni", "stellar", "xlm", "cosmos", "atom", "near protocol", "near"
  , "algorand", "algo", "tron", "trx"
  , "s&p 500", "nasdaq", "dow jones", "dji"
  , "gold", "silver", "crude oil", "natural gas"
  , "tesla", "apple", "microsoft", "amazon", "google", "meta" ]

/-- The `symbolMap` object of `mapSymbolToName`. -/
def symbolMap : List (String × String) :=
  [ ("btc", "Bitcoin"), ("bitcoin", "Bitcoin")
  , ("eth", "Ethereum"), ("ethereum", "Ethereum")
  , ("sol", "Solana"), ("solana", "Solana")
  , ("ada", "Cardano"), ("cardano", "Cardano")
  , ("bnb", "BNB"), ("binance coin", "BNB")
  , ("xrp", "XRP"), ("ripple", "XRP")
  , ("doge", "Dogecoin"), ("dogecoin", "Dogecoin")
  , ("dot", "Polkadot"), ("polkadot", "Polkadot")
  , ("avax", "Avalanche"), ("avalanche", "Avalanche")
  , ("ltc", "Litecoin"), ("litecoin", "Litecoin")
  , ("link", "Chainlink"), ("chainlink", "Chainlink")
  , ("matic", "Polygon"), ("polygon", "Polygon")
  , ("uni", "Uniswap"), ("uniswap", "Uniswap")
  , ("xlm", "Stellar"), ("stellar", "Stellar")
  , ("atom", "Cosmos"), ("cosmos", "Cosmos")
  , ("near", "NEAR Protocol"), ("near protocol", "NEAR Protocol")
  , ("algo", "Algorand"), ("algorand", "Algorand")
  , ("trx", "TRON"), ("tron", "TRON")
  , ("nasdaq", "NASDAQ"), ("s&p 500", "S&P 500")
  , ("dow jones", "Dow Jones"), ("dji", "Dow Jones")
  , ("gold", "Gold"), ("silver", "Silver")
  , ("crude oil", "Crude Oil"), ("natural gas", "Natural Gas")
  , ("tesla", "Tesla"), ("apple", "Apple"), ("microsoft", "Microsoft")
  , ("amazon", "Amazon"), ("google", "Google"), ("meta", "Meta") ]

/-- `symbol.charAt(0).toUpperCase() + symbol.slice(1)` (empty string for the
empty input, as `charAt` of an empty string is the empty string). -/
def capFirst (s : String) : String :=
  match s.toList with
  | [] => ""
  | c :: rest => String.mk (c.toUpper :: rest)

/-- `mapSymbolToName`: the `symbolMap` lookup with the capitalise-first
fallback (`symbolMap[symbol] || symbol.charAt(0).toUpperCase() + symbol.slice(1)`). -/
def mapSymbolToName (symbol : String) : String :=
  ((symbolMap.find? (fun p => p.1 == symbol)).map (fun p => p.2)).getD (capFirst symbol)

/-- List-prefix test on characters. -/
def listPre : List Char → List Char → Bool
  | [], _ => true
  | _ :: _, [] => false
  | a :: as, b :: bs => a == b && listPre as bs

/-- JavaScript `string.includes(sub)` on character lists. -/
def containsSub (a : List Char) : List Char → Bool
  | [] => listPre a []
  | c :: rest => listPre a (c :: rest) || containsSub a rest

/-- JavaScript regular-expression word characters, `[A-Za-z0-9_]`. -/
def isWordChar (c : Char) : Bool :=
  c.isAlphanum || c = '_'

/-- A word boundary holds before a match when there is no previous character
or the previous character is not a word character. -/
def okBoundary : Option Char → Bool
  | none => true
  | some c => !isWordChar c

/-- A word boundary holds after a match when the remaining text is empty or
starts with a non-word character. -/
def okSuffixBoundary : List Char → Bool
  | [] => true
  | c :: _ => !isWordChar c

/-- Does `a` occur in the text with word boundaries on both sides, scanning
from a state where `prev` is the character just before the remaining text? -/
def occursAsWordFrom (a : List Char) : Option Char → List Char → Bool
  | prev, [] => okBoundary prev && listPre a [] && okSuffixBoundary []
  | prev, c :: rest =>
      (okBoundary prev && listPre a (c :: rest) &&
        okSuffixBoundary ((c :: rest).drop a.length)) ||
      occursAsWordFrom a (some c) rest

/-- The test `new RegExp("\\b" ++ asset ++ "\\b").test(text)` for an asset
made of word characters: a standalone-word occurrence. -/
def occursAsWord (a q : List Char) : Bool :=
  occursAsWordFrom a none q

/-- Whether `extractAssetsFromQuery` counts `asset` as present in `query`:
the lowercased query must contain it, and an asset string of length at most 4
must additionally occur as a standalone word. -/
def assetMatches (asset query : String) : Bool :=
  containsSub asset.toList (query.toLower).toList &&
    (if asset.length ≤ 4 then occursAsWord asset.toList (query.toLower).toList else true)

/-- The accumulation loop of `extractAssetsFromQuery`: walk `commonAssets`,
push the canonical name of each matched asset unless already present. -/
def extractLoop (query : String) : List String → List String → List String
  | [], acc => acc
  | asset :: rest, acc =>
      if assetMatches asset query = true ∧ mapSymbolToName (asset.toLower) ∉ acc then
        extractLoop query rest (acc ++ [mapSymbolToName (asset.toLower)])
      else
        extractLoop query rest acc

/-- `extractAssetsFromQuery` from `utils/queryParser.ts`. -/
def extractAssetsFromQuery (query : String) : List String :=
  extractLoop query commonAssets []

/-! ### FTSO / model / consensus api service (`services/api.ts`) -/

/-- `HistoricalDataPoint` of `services/api.ts` (timestamps as naturals). -/
structure HistoricalDataPoint where
  timestamp : ℕ
  price : ℚ
  deriving DecidableEq, Repr

/-- The `FTSOFeed` interface of `services/api.ts`. -/
structure FTSOFeed where
  id : String
  name : String
  current_price : ℚ
  previous_price : ℚ
  change_24h : ℚ
  updated_at : ℕ
  historical_data : List HistoricalDataPoint
  deriving DecidableEq, Repr

/-- Rounding to `d` decimal places, modelling `parseFloat(x.toFixed(d))`. -/
def roundTo (d : ℕ) (x : ℚ) : ℚ :=
  ((round (x * (10 ^ d : ℚ)) : ℤ) : ℚ) / (10 ^ d : ℚ)

/-- `generateMockHistoricalData(min, max)`: 24 hourly points with random
prices in `[min, max)`, returned in chronological order. -/
def generateMockHistoricalData (lo hi : ℚ) (now : ℕ) (rnd : ℕ → ℚ) :
    List HistoricalDataPoint :=
  ((List.range 24).map (fun i =>
    { timestamp := now - i * 3600000
      price := roundTo (if lo < 1 then 4 else 2) (lo + rnd i * (hi - lo)) })).reverse

/-- The hard-coded mock feed list returned by `ftsoApi.getAllFeeds` when the
request fails. -/
def mockFTSOFeeds (now : ℕ) (rnd : ℕ → ℕ → ℚ) : List FTSOFeed :=
  [ { id := "ftso-xrp-usd", name := "XRP/USD", current_price := 0.5923
      previous_price := 0.5738, change_24h := 3.22, updated_at := now
      historical_data := generateMockHistoricalData 0.57 0.60 now (rnd 0) }
  , { id := "ftso-flr-usd", name := "FLR/USD", current_price := 0.0243
      previous_price := 0.0251, change_24h := -3.19, updated_at := now
      historical_data := generateMockHistoricalData 0.023 0.026 now (rnd 1) }
  , { id := "ftso-ltc-usd", name := "LTC/USD", current_price := 67.92
      previous_price := 65.47, change_24h := 3.74, updated_at := now
      historical_data := generateMockHistoricalData 64 68 now (rnd 2) }
  , { id := "ftso-btc-usd", name := "BTC/USD", current_price := 27453.12
      previous_price := 27981.35, change_24h := -1.89, updated_at := now
      historical_data := generateMockHistoricalData 27000 28000 now (rnd 3) }
  , { id := "ftso-eth-usd", name := "ETH/USD", current_price := 1843.27
      previous_price := 1801.53, change_24h := 2.32, updated_at := now
      historical_data := generateMockHistoricalData 1800 1850 now (rnd 4) } ]

/-- `ftsoApi.getAllFeeds`: returns the response data, replacing a failed
request by the locally generated mock feed list. -/
def ftsoGetAllFeeds (resp : Except String (List FTSOFeed)) (now : ℕ)
    (rnd : ℕ → ℕ → ℚ) : Except String (List FTSOFeed) :=
  match resp with
  | .ok data => .ok data
  | .error _ => .ok (mockFTSOFeeds now rnd)

/-- `ftsoApi.getFeedById`: returns the response data, replacing a failed
request by `null` (modelled as `none`). -/
def ftsoGetFeedById (resp : Except String FTSOFeed) :
    Except String (Option FTSOFeed) :=
  match resp with
  | .ok data => .ok (some data)
  | .error _ => .ok none

/-- `analyzePrediction` from `services/predictionService.ts`: the `catch`
block logs the error and rethrows it unchanged. -/
def analyzePrediction (resp : Except String α) : Except String α :=
  match resp with
  | .ok data => .ok data
  | .error e => .error e

/-! ### Moralis market-data service (`services/moralisService.ts`) -/

/-- The `baseTokenPrices` table of `getBasePrice`. -/
def baseTokenPrices : List (String × ℚ) :=
  [ ("bitcoin", 62500), ("btc", 62500), ("ethereum", 3300), ("eth", 3300)
  , ("solana", 180), ("sol", 180), ("cardano", 0.55), ("ada", 0.55)
  , ("bnb", 610), ("xrp", 0.65), ("dogecoin", 0.16), ("doge", 0.16)
  , ("polkadot", 7.9), ("dot", 7.9), ("avalanche", 36), ("avax", 36)
  , ("litecoin", 87), ("ltc", 87) ]

/-- `getBasePrice`: table lookup on the lowercased token, defaulting to 100. -/
def getBasePrice (token : String) : ℚ :=
  ((baseTokenPrices.find? (fun p => p.1 == token.toLower)).map (fun p => p.2)).getD 100

/-- The `estimatedPrices` table of the `getTokenPrice` fallback. -/
def estimatedPrices : List (String × ℚ) :=
  [ ("BTC", 62500), ("ETH", 3300), ("SOL", 180), ("ADA", 0.55), ("BNB", 610)
  , ("XRP", 0.65), ("DOGE", 0.16), ("DOT", 7.9), ("AVAX", 36), ("LTC", 87) ]

/-- The `fallbackSymbols` table of the `getTokenPrice` fallback. -/
def fallbackSymbols : List (String × String) :=
  [ ("bitcoin", "BTC"), ("ethereum", "ETH"), ("solana", "SOL")
  , ("cardano", "ADA"), ("bnb", "BNB"), ("xrp", "XRP"), ("dogecoin", "DOGE")
  , ("polkadot", "DOT"), ("avalanche", "AVAX"), ("litecoin", "LTC") ]

/-- The locally generated fallback price of the `getTokenPrice` `catch`
block: `estimatedPrices[symbol] || 100` with
`symbol = fallbackSymbols[token.toLowerCase()] || token.toUpperCase()`. -/
def fallbackTokenPrice (token : String) : ℚ :=
  let symbol :=
    ((fallbackSymbols.find? (fun p => p.1 == token.toLower)).map (fun p => p.2)).getD
      token.toUpper
  ((estimatedPrices.find? (fun p => p.1 == symbol)).map (fun p => p.2)).getD 100

/-- `getTokenPrice` from `moralisService.ts`.  The response carries the
parsed `data[token].usd` field when the request succeeds (`none` models an
absent price); a missing, zero (`!price`) or failed price falls back to the
local estimate, so the function is total and never rejects. -/
def getTokenPrice (token : String) (resp : Except String (Option ℚ)) : ℚ :=
  match resp with
  | .ok (some price) => if price = 0 then fallbackTokenPrice token else price
  | .ok none => fallbackTokenPrice token
  | .error _ => fallbackTokenPrice token

/-- The mock-history loop shared (textually) by the `getHistoricalPrices`
`catch` block (`days`, volatility 0.03) and `createFallbackDataFeed`
(14 days, volatility 0.02): point `k` (day `i = days - k`) has value
`basePrice * (1 + ((days-i)/days) * 0.1) * (1 + (rnd k - 0.5) * volatility * 2)`. -/
def mockHistoricalSeries (basePrice : ℚ) (days : ℕ) (volatility : ℚ)
    (now : ℕ) (rnd : ℕ → ℚ) : List PricePoint :=
  (List.range (days + 1)).map (fun k =>
    { timestamp := now - (days - k)
      value := basePrice * (1 + ((k : ℚ) / (days : ℚ)) * (1 / 10))
                 * (1 + (rnd k - 1 / 2) * volatility * 2) })

/-- `getHistoricalPrices` from `moralisService.ts`.  The response carries the
parsed `data.prices` array when the request succeeds (`none` models a missing
or non-array `prices` field); any failure is replaced by the locally
generated mock series. -/
def getHistoricalPrices (token : String) (days : ℕ)
    (resp : Except String (Option (List (ℕ × ℚ)))) (now : ℕ) (rnd : ℕ → ℚ) :
    List PricePoint :=
  match resp with
  | .ok (some prices) => prices.map (fun p => { timestamp := p.1, value := p.2 })
  | .ok none => mockHistoricalSeries (getBasePrice token) days (3 / 100) now rnd
  | .error _ => mockHistoricalSeries (getBasePrice token) days (3 / 100) now rnd

/-- `asset.charAt(0).toUpperCase() + asset.slice(1).toLowerCase()`: the feed
name built by `getMarketDataFeeds` and `createFallbackDataFeed`. -/
def capitalizeName (s : String) : String :=
  match s.toList with
  | [] => ""
  | c :: rest => String.mk (c.toUpper :: rest.map Char.toLower)

/-- The trend computation of the `getMarketDataFeeds` success path: `stable`
unless more than 5 historical points exist and the first-to-last percent
change exceeds 5 in magnitude. -/
def trendFromHistory (historicalPrices : List PricePoint) : String :=
  if 5 < historicalPrices.length then
    let recent :=
      ((historicalPrices.get? (historicalPrices.length - 1)).map (fun p => p.value)).getD 0
    let past := ((historicalPrices.get? 0).map (fun p => p.value)).getD 0
    let percentChange := if 0 < past then ((recent - past) / past) * 100 else 0
    if percentChange > 5 then "up"
    else if percentChange < -5 then "down"
    else "stable"
  else "stable"

/-- `createFallbackDataFeed` from `moralisService.ts`: a mock 15-point
series around `getBasePrice`, with the trend derived from its endpoints. -/
def createFallbackDataFeed (asset : String) (now : ℕ) (rnd : ℕ → ℚ) : DataFeed :=
  let basePrice := getBasePrice asset
  let historical := mockHistoricalSeries basePrice 14 (2 / 100) now rnd
  let recent :=
    if 0 < historical.length then
      ((historical.get? (historical.length - 1)).map (fun p => p.value)).getD 0
    else 0
  let past :=
    if 0 < historical.length then ((historical.get? 0).map (fun p => p.value)).getD 0
    else 0
  let percentChange := if 0 < past then ((recent - past) / past) * 100 else 0
  { name := capitalizeName asset
    feed_id := asset.toLower
    current_value := basePrice
    timestamp := now
    trend :=
      if percentChange > 5 then "up"
      else if percentChange < -5 then "down"
      else "stable"
    historical := historical }

/-- The network/runtime environment of one asset inside the per-asset `try`
block of `getMarketDataFeeds`: the two responses, the random streams of the
mock generators, and whether the block raises (its `catch` then substitutes
the fallback feed). -/
structure AssetEnv where
  priceResp : Except String (Option ℚ)
  histResp : Except String (Option (List (ℕ × ℚ)))
  histRnd : ℕ → ℚ
  fallbackRnd : ℕ → ℚ
  throws : Bool

/-- The body of the per-asset `try` block of `getMarketDataFeeds`: fetch the
price and history and assemble the `DataFeed`. -/
def processAsset (env : AssetEnv) (now : ℕ) (asset : String) : DataFeed :=
  let currentPrice := getTokenPrice asset env.priceResp
  let historicalPrices := getHistoricalPrices asset 14 env.histResp now env.histRnd
  { name := capitalizeName asset
    feed_id := asset.toLower
    current_value := currentPrice
    historical := historicalPrices
    trend := trendFromHistory historicalPrices
    timestamp := now }

/-- `getMarketDataFeeds` from `moralisService.ts`: one feed per asset in
order; a throwing per-asset block is replaced by the fallback feed, and an
outer failure replaces the whole result by fallback feeds for every asset. -/
def getMarketDataFeeds (envs : String → AssetEnv) (outerThrows : Bool)
    (now : ℕ) (assets : List String) : List DataFeed :=
  if outerThrows then
    assets.map (fun asset => createFallbackDataFeed asset now (envs asset).fallbackRnd)
  else
    assets.map (fun asset =>
      if (envs asset).throws then createFallbackDataFeed asset now (envs asset).fallbackRnd
      else processAsset (envs asset) now asset)

/-! ### Concrete example inputs used by witnesses and counterexamples -/

/-- A feed whose 5-point historical series is constant at 1. -/
def feedConst5 : DataFeed :=
  { feed_id := "btc", name := "Bitcoin", current_value := 1, timestamp := 0
    trend := "stable"
    historical := [⟨0, 1⟩, ⟨1, 1⟩, ⟨2, 1⟩, ⟨3, 1⟩, ⟨4, 1⟩] }

/-- A feed with only two historical points. -/
def feedShort : DataFeed :=
  { feed_id := "eth", name := "Ethereum", current_value := 2, timestamp := 0
    trend := "stable"
    historical := [⟨0, 2⟩, ⟨1, 3⟩] }

/-- A feed with six non-constant historical points. -/
def feedSix : DataFeed :=
  { feed_id := "sol", name := "Solana", current_value := 6, timestamp := 0
    trend := "up"
    historical := [⟨0, 1⟩, ⟨1, 3⟩, ⟨2, 2⟩, ⟨3, 5⟩, ⟨4, 4⟩, ⟨5, 6⟩] }

/-! ### Error-handling of the data-fetching operations (C2) -/

/-- C2 is false as stated: on a network failure `analyzePrediction` rethrows
the error to its caller instead of returning placeholder data, and
`ftsoApi.getFeedById` resolves to `null` (here `none`), not to mock data. -/
theorem C2_counterexample :
    analyzePrediction (α := ℕ) (.error "network down") = .error "network down" ∧
    ftsoGetFeedById (.error "network down") = .ok none :=
  ⟨rfl, rfl⟩

/-- C2 amended: on a network failure, `getAllFeeds` resolves with the locally
generated mock feed list and `getTokenPrice` with the local fallback price;
`getFeedById` catches the failure but resolves with `null` rather than mock
data; `analyzePrediction` catches, logs and rethrows the error, so its caller
does observe the failure. -/
theorem C2_amended (e : String) (now : ℕ) (rnd : ℕ → ℕ → ℚ) (token : String)
    (α : Type) :
    ftsoGetAllFeeds (.error e) now rnd = .ok (mockFTSOFeeds now rnd) ∧
    ftsoGetFeedById (.error e) = .ok none ∧
    getTokenPrice token (.error e) = fallbackTokenPrice token ∧
    analyzePrediction (α := α) (.error e) = .error e :=
  ⟨rfl, rfl, rfl, rfl⟩

/-! ### Technical indicators: short series (C3) -/

/-- C3: a historical series with fewer than 5 points yields the fixed neutral
defaults — RSI 50, MACD neutral, both moving averages equal to the current
value, and Bollinger bands at the current value times 1.05 and 0.95 — with
nothing computed from the series. -/
theorem C3_short_series_defaults (feed : DataFeed) (rVol : ℚ)
    (h : feed.historical.length < 5) :
    calculateTechnicalIndicatorsFromHistorical feed rVol =
      { rsi := 50
        macd := "neutral"
        ma50 := feed.current_value
        ma200 := feed.current_value
        bollingerUpper := (feed.current_value : ℝ) * 1.05
        bollingerLower := (feed.current_value : ℝ) * 0.95
        volumeChange := 0 } := by
  simp [calculateTechnicalIndicatorsFromHistorical, h]

/-- Witness for C3 at the two-point feed. -/
theorem C3_short_series_defaults_witness :
    feedShort.historical.length < 5 ∧
    calculateTechnicalIndicatorsFromHistorical feedShort 0 =
      { rsi := 50
        macd := "neutral"
        ma50 := feedShort.current_value
        ma200 := feedShort.current_value
        bollingerUpper := (feedShort.current_value : ℝ) * 1.05
        bollingerLower := (feedShort.current_value : ℝ) * 0.95
        volumeChange := 0 } :=
  ⟨by decide, C3_short_series_defaults feedShort 0 (by decide)⟩

/-! ### Technical indicators: RSI bounds (C4) -/

/-- The summed losses are nonnegative. -/
theorem lossesOf_nonneg (hist : List PricePoint) : 0 ≤ lossesOf hist := by
  apply List.sum_nonneg
  intro x hx
  simp only [lossesOf, List.mem_map] at hx
  obtain ⟨c, _, rfl⟩ := hx
  exact abs_nonneg c

/-- The summed gains are nonnegative. -/
theorem gainsOf_nonneg (hist : List PricePoint) : 0 ≤ gainsOf hist := by
  apply List.sum_nonneg
  intro x hx
  simp only [gainsOf, List.mem_filter] at hx
  have := hx.2
  exact le_of_lt (by exact_mod_cast of_decide_eq_true this)

/-- The guarded average loss is strictly positive. -/
theorem avgLossOf_pos (hist : List PricePoint) : 0 < avgLossOf hist := by
  have hdef : avgLossOf hist =
      if lossesOf hist / (hist.length : ℚ) = 0 then 1 / 100
      else lossesOf hist / (hist.length : ℚ) := rfl
  rw [hdef]
  split
  · norm_num
  · rename_i hne
    have hnum := lossesOf_nonneg hist
    have hden : (0 : ℚ) ≤ (hist.length : ℚ) := by positivity
    have : 0 ≤ lossesOf hist / (hist.length : ℚ) := div_nonneg hnum hden
    exact lt_of_le_of_ne this (Ne.symm hne)

/-- The average gain is nonnegative. -/
theorem avgGainOf_nonneg (hist : List PricePoint) : 0 ≤ avgGainOf hist := by
  have hdef : avgGainOf hist =
      if gainsOf hist / (hist.length : ℚ) = 0 then 0
      else gainsOf hist / (hist.length : ℚ) := rfl
  rw [hdef]
  split
  · norm_num
  · exact div_nonneg (gainsOf_nonneg hist) (by positivity)

/-- The unrounded RSI lies in `[0, 100)`. -/
theorem rsiRawOf_bounds (hist : List PricePoint) :
    0 ≤ rsiRawOf hist ∧ rsiRawOf hist < 100 := by
  unfold rsiRawOf
  have hrs : 0 ≤ avgGainOf hist / avgLossOf hist :=
    div_nonneg (avgGainOf_nonneg hist) (avgLossOf_pos hist).le
  have hden : (0 : ℚ) < 1 + avgGainOf hist / avgLossOf hist := by linarith
  have hfrac_pos : 0 < 100 / (1 + avgGainOf hist / avgLossOf hist) := by positivity
  have hfrac_le : 100 / (1 + avgGainOf hist / avgLossOf hist) ≤ 100 := by
    rw [div_le_iff₀ hden]
    nlinarith
  constructor
  · linarith
  · linarith

/-- C4: for a series of at least 5 points, the rounded RSI reported by
`calculateTechnicalIndicatorsFromHistorical` lies in `[0, 100]`, and the
average-loss denominator of its computation is nonzero. -/
theorem C4_rsi_bounds (feed : DataFeed) (rVol : ℚ)
    (h : 5 ≤ feed.historical.length) :
    0 ≤ (calculateTechnicalIndicatorsFromHistorical feed rVol).rsi ∧
    (calculateTechnicalIndicatorsFromHistorical feed rVol).rsi ≤ 100 ∧
    avgLossOf feed.historical ≠ 0 := by
  have hnot : ¬ feed.historical.length < 5 := by omega
  have hrsi : (calculateTechnicalIndicatorsFromHistorical feed rVol).rsi =
      round (rsiRawOf feed.historical) := by
    simp [calculateTechnicalIndicatorsFromHistorical, hnot]
  obtain ⟨hlo, hhi⟩ := rsiRawOf_bounds feed.historical
  refine ⟨?_, ?_, (avgLossOf_pos feed.historical).ne'⟩
  · rw [hrsi, round_eq]
    exact Int.floor_nonneg.mpr (by linarith)
  · rw [hrsi, round_eq]
    have : ⌊rsiRawOf feed.historical + 1 / 2⌋ < 101 := by
      apply Int.floor_lt.mpr
      push_cast
      linarith
    omega

/-- Witness for C4 at the six-point feed. -/
theorem C4_rsi_bounds_witness :
    5 ≤ feedSix.historical.length ∧
    (0 ≤ (calculateTechnicalIndicatorsFromHistorical feedSix 0).rsi ∧
     (calculateTechnicalIndicatorsFromHistorical feedSix 0).rsi ≤ 100 ∧
     avgLossOf feedSix.historical ≠ 0) :=
  ⟨by decide, C4_rsi_bounds feedSix 0 (by decide)⟩

/-! ### Technical indicators: Bollinger bands (C5) -/

/-- C5: for a series of at least 5 points, the Bollinger bands equal the mean
of the last (up to) 20 prices plus and minus two population standard
deviations of those prices, so the lower band, the mean and the upper band
are ordered. -/
theorem C5_bollinger_bands (feed : DataFeed) (rVol : ℚ)
    (h : 5 ≤ feed.historical.length) :
    (calculateTechnicalIndicatorsFromHistorical feed rVol).bollingerUpper =
      (listMean (pricesOf feed.historical) : ℝ) +
        2 * Real.sqrt (popVariance (pricesOf feed.historical)) ∧
    (calculateTechnicalIndicatorsFromHistorical feed rVol).bollingerLower =
      (listMean (pricesOf feed.historical) : ℝ) -
        2 * Real.sqrt (popVariance (pricesOf feed.historical)) ∧
    (calculateTechnicalIndicatorsFromHistorical feed rVol).bollingerLower ≤
      (listMean (pricesOf feed.historical) : ℝ) ∧
    (listMean (pricesOf feed.historical) : ℝ) ≤
      (calculateTechnicalIndicatorsFromHistorical feed rVol).bollingerUpper := by
  have hnot : ¬ feed.historical.length < 5 := by omega
  have hup : (calculateTechnicalIndicatorsFromHistorical feed rVol).bollingerUpper =
      (sma20Of feed.historical : ℝ) + Real.sqrt (varianceOf feed.historical) * 2 := by
    simp [calculateTechnicalIndicatorsFromHistorical, hnot]
  have hlo : (calculateTechnicalIndicatorsFromHistorical feed rVol).bollingerLower =
      (sma20Of feed.historical : ℝ) - Real.sqrt (varianceOf feed.historical) * 2 := by
    simp [calculateTechnicalIndicatorsFromHistorical, hnot]
  have hsqrt : 0 ≤ Real.sqrt (varianceOf feed.historical) := Real.sqrt_nonneg _
  have hs : sma20Of feed.historical = listMean (pricesOf feed.historical) := rfl
  have hv : varianceOf feed.historical = popVariance (pricesOf feed.historical) := rfl
  rw [hv] at hsqrt
  rw [hup, hlo, hs, hv]
  refine ⟨by ring, by ring, by linarith, by linarith⟩

/-- Witness for C5 at the six-point feed. -/
theorem C5_bollinger_bands_witness :
    5 ≤ feedSix.historical.length ∧
    ((calculateTechnicalIndicatorsFromHistorical feedSix 0).bollingerUpper =
      (listMean (pricesOf feedSix.historical) : ℝ) +
        2 * Real.sqrt (popVariance (pricesOf feedSix.historical)) ∧
    (calculateTechnicalIndicatorsFromHistorical feedSix 0).bollingerLower =
      (listMean (pricesOf feedSix.historical) : ℝ) -
        2 * Real.sqrt (popVariance (pricesOf feedSix.historical)) ∧
    (calculateTechnicalIndicatorsFromHistorical feedSix 0).bollingerLower ≤
      (listMean (pricesOf feedSix.historical) : ℝ) ∧
    (listMean (pricesOf feedSix.historical) : ℝ) ≤
      (calculateTechnicalIndicatorsFromHistorical feedSix 0).bollingerUpper) :=
  ⟨by decide, C5_bollinger_bands feedSix 0 (by decide)⟩

/-! ### Technical indicators: MACD label (C6) -/

/-- Taking the last `k` elements commutes with mapping. -/
theorem sliceLast_map (f : α → β) (k : ℕ) (l : List α) :
    sliceLast k (l.map f) = (sliceLast k l).map f := by
  simp [sliceLast, List.map_drop]

/-- The length of the last-`k` slice is `min k (length l)`. -/
theorem length_sliceLast (k : ℕ) (l : List α) :
    (sliceLast k l).length = min k l.length := by
  simp [sliceLast]
  omega

/-- When the series has at least `k` points, the specification's `k`-period
simple moving average of the values is the last-`k` sum divided by `k`. -/
theorem specSMA_of_le (k : ℕ) (hist : List PricePoint) (hk : k ≤ hist.length) :
    specSimpleMovingAverage k (hist.map (fun p => p.value)) =
      ((sliceLast k hist).map (fun p => p.value)).sum / (k : ℚ) := by
  unfold specSimpleMovingAverage listMean
  have hmin : min k (hist.map (fun p => p.value)).length = k := by
    simp
    omega
  rw [hmin, sliceLast_map]
  have hlen : ((sliceLast k hist).map (fun p => p.value)).length = k := by
    rw [List.length_map, length_sliceLast]
    omega
  rw [hlen]

/-- C6 is false as stated: on the constant five-point series the code labels
MACD `bullish` (it compares `sum(last 12)/12 = 5/12` with
`sum(last 26)/26 = 5/26`), although the 12- and 26-period simple moving
averages of the series are equal, so the claimed rule would give `neutral`. -/
theorem C6_counterexample :
    (calculateTechnicalIndicatorsFromHistorical feedConst5 0).macd = "bullish" ∧
    specSimpleMovingAverage 12 (feedConst5.historical.map (fun p => p.value)) =
      specSimpleMovingAverage 26 (feedConst5.historical.map (fun p => p.value)) := by
  have hshort : shortMAOf feedConst5.historical = 5 / 12 := by
    norm_num [shortMAOf, sliceLast, feedConst5]
  have hlong : longMAOf feedConst5.historical = 5 / 26 := by
    norm_num [longMAOf, sliceLast, feedConst5]
  constructor
  · have hnot : ¬ feedConst5.historical.length < 5 := by decide
    have hm : (calculateTechnicalIndicatorsFromHistorical feedConst5 0).macd =
        macdOf feedConst5.historical := by
      simp [calculateTechnicalIndicatorsFromHistorical, hnot]
    rw [hm]
    norm_num [macdOf, hshort, hlong]
  · norm_num [specSimpleMovingAverage, listMean, sliceLast, feedConst5]

/-- C6 amended: the MACD label compares the last-12 sum divided by the
constant 12 with the last-26 sum divided by the constant 26 (`bullish` when
greater, `bearish` when smaller, `neutral` when equal, always one of the
three); for series with at least 26 points these two quotients are exactly
the 12- and 26-period simple moving averages, so the original claim holds
there. -/
theorem C6_amended_macd (feed : DataFeed) (rVol : ℚ)
    (h : 5 ≤ feed.historical.length) :
    ((calculateTechnicalIndicatorsFromHistorical feed rVol).macd = "bullish" ↔
      shortMAOf feed.historical > longMAOf feed.historical) ∧
    ((calculateTechnicalIndicatorsFromHistorical feed rVol).macd = "bearish" ↔
      shortMAOf feed.historical < longMAOf feed.historical) ∧
    ((calculateTechnicalIndicatorsFromHistorical feed rVol).macd = "neutral" ↔
      shortMAOf feed.historical = longMAOf feed.historical) ∧
    (calculateTechnicalIndicatorsFromHistorical feed rVol).macd ∈
      ["bullish", "bearish", "neutral"] ∧
    (26 ≤ feed.historical.length →
      shortMAOf feed.historical =
        specSimpleMovingAverage 12 (feed.historical.map (fun p => p.value)) ∧
      longMAOf feed.historical =
        specSimpleMovingAverage 26 (feed.historical.map (fun p => p.value))) := by
  have hnot : ¬ feed.historical.length < 5 := by omega
  have hm : (calculateTechnicalIndicatorsFromHistorical feed rVol).macd =
      macdOf feed.historical := by
    simp [calculateTechnicalIndicatorsFromHistorical, hnot]
  have hspec : 26 ≤ feed.historical.length →
      shortMAOf feed.historical =
        specSimpleMovingAverage 12 (feed.historical.map (fun p => p.value)) ∧
      longMAOf feed.historical =
        specSimpleMovingAverage 26 (feed.historical.map (fun p => p.value)) := by
    intro h26
    constructor
    · rw [specSMA_of_le 12 feed.historical (by omega)]
      rfl
    · rw [specSMA_of_le 26 feed.historical (by omega)]
      rfl
  rw [hm]
  rcases lt_trichotomy (longMAOf feed.historical) (shortMAOf feed.historical) with
    hgt | heq | hlt
  · have hb : macdOf feed.historical = "bullish" := by
      simp [macdOf, gt_iff_lt, hgt]
    rw [hb]
    exact ⟨iff_of_true rfl hgt,
      iff_of_false (by decide) (asymm hgt),
      iff_of_false (by decide) (ne_of_gt hgt),
      by decide, hspec⟩
  · have hb : macdOf feed.historical = "neutral" := by
      simp [macdOf, gt_iff_lt, heq]
    rw [hb]
    exact ⟨iff_of_false (by decide) (by rw [heq]; exact lt_irrefl _),
      iff_of_false (by decide) (by rw [heq]; exact lt_irrefl _),
      iff_of_true rfl heq.symm,
      by decide, hspec⟩
  · have hb : macdOf feed.historical = "bearish" := by
      simp [macdOf, gt_iff_lt, asymm hlt, hlt]
    rw [hb]
    exact ⟨iff_of_false (by decide) (asymm hlt),
      iff_of_true rfl hlt,
      iff_of_false (by decide) (ne_of_lt hlt),
      by decide, hspec⟩

/-- Witness for the amended C6 at the six-point feed. -/
theorem C6_amended_macd_witness :
    5 ≤ feedSix.historical.length ∧
    (((calculateTechnicalIndicatorsFromHistorical feedSix 0).macd = "bullish" ↔
      shortMAOf feedSix.historical > longMAOf feedSix.historical) ∧
    ((calculateTechnicalIndicatorsFromHistorical feedSix 0).macd = "bearish" ↔
      shortMAOf feedSix.historical < longMAOf feedSix.historical) ∧
    ((calculateTechnicalIndicatorsFromHistorical feedSix 0).macd = "neutral" ↔
      shortMAOf feedSix.historical = longMAOf feedSix.historical) ∧
    (calculateTechnicalIndicatorsFromHistorical feedSix 0).macd ∈
      ["bullish", "bearish", "neutral"] ∧
    (26 ≤ feedSix.historical.length →
      shortMAOf feedSix.historical =
        specSimpleMovingAverage 12 (feedSix.historical.map (fun p => p.value)) ∧
      longMAOf feedSix.historical =
        specSimpleMovingAverage 26 (feedSix.historical.map (fun p => p.value)))) :=
  ⟨by decide, C6_amended_macd feedSix 0 (by decide)⟩

/-! ### Model confidences (C7) -/

/-- C7 is false as stated: with overall-confidence draw 0.9 (confidence
0.915) and Llama draw 0.9, the Llama model response carries confidence
`0.915 + 0.9 * 0.15 = 1.05 > 1`, outside `[0, 1]`. -/
theorem C7_counterexample :
    ∃ m ∈ (generateVerificationDetails "LIKELY" (confidenceOf (9 / 10))
        0 0 0 0 0 (9 / 10)).model_responses,
      1 < m.confidence := by
  refine ⟨⟨"Llama 3.3 70B", "HIGHLY LIKELY",
    confidenceOf (9 / 10) + (9 / 10) * (15 / 100)⟩, ?_, ?_⟩
  · simp [generateVerificationDetails]
  · norm_num [confidenceOf]

/-- C7 amended: the overall confidence lies in `[0, 1]` (indeed in
`[0.6, 0.95)`), while each per-model confidence in `model_responses` lies
only in the wider interval `[0.35, 1.1)` and can exceed 1. -/
theorem C7_amended_confidence_bounds (fd : String) (rConf rA r1 r2 r3 r4 r5 : ℚ)
    (hc0 : 0 ≤ rConf) (hc1 : rConf < 1)
    (h10 : 0 ≤ r1) (h11 : r1 < 1) (h20 : 0 ≤ r2) (h21 : r2 < 1)
    (h30 : 0 ≤ r3) (h31 : r3 < 1) (h40 : 0 ≤ r4) (h41 : r4 < 1)
    (h50 : 0 ≤ r5) (h51 : r5 < 1) :
    (0 ≤ confidenceOf rConf ∧ confidenceOf rConf ≤ 1) ∧
    ∀ m ∈ (generateVerificationDetails fd (confidenceOf rConf)
        rA r1 r2 r3 r4 r5).model_responses,
      7 / 20 ≤ m.confidence ∧ m.confidence < 11 / 10 := by
  constructor
  · unfold confidenceOf
    constructor <;> nlinarith
  · intro m hm
    simp only [generateVerificationDetails, List.mem_cons, List.not_mem_nil,
      or_false] at hm
    rcases hm with h | h | h | h | h <;> subst h <;> dsimp only <;>
      unfold confidenceOf <;> constructor <;> nlinarith

/-- Witness for the amended C7 at the all-zero draws. -/
theorem C7_amended_confidence_bounds_witness :
    ((0:ℚ) ≤ 0 ∧ (0:ℚ) < 1) ∧
    ((0 ≤ confidenceOf 0 ∧ confidenceOf 0 ≤ 1) ∧
    ∀ m ∈ (generateVerificationDetails "LIKELY" (confidenceOf 0)
        0 0 0 0 0 0).model_responses,
      7 / 20 ≤ m.confidence ∧ m.confidence < 11 / 10) :=
  ⟨⟨le_refl 0, by norm_num⟩,
    C7_amended_confidence_bounds "LIKELY" 0 0 0 0 0 0 0
      (by norm_num) (by norm_num) (by norm_num) (by norm_num) (by norm_num)
      (by norm_num) (by norm_num) (by norm_num) (by norm_num) (by norm_num)
      (by norm_num) (by norm_num)⟩

/-! ### Decision labels (C1, C8) -/

/-- The floor index of the random decision branch stays below 5. -/
theorem floor_index_lt_five (rDec : ℚ) (h0 : 0 ≤ rDec) (h1 : rDec < 1) :
    (⌊rDec * 5⌋).toNat < 5 := by
  have h5 : rDec * 5 < 5 := by linarith
  have hnn : (0 : ℚ) ≤ rDec * 5 := by linarith
  have hf : ⌊rDec * 5⌋ < 5 := Int.floor_lt.mpr (by push_cast; linarith)
  have hge : 0 ≤ ⌊rDec * 5⌋ := Int.floor_nonneg.mpr hnn
  omega

/-- In-range indexing into the five-label pool lands in the pool. -/
theorem poolGet_mem (i : ℕ) (hi : i < 5) :
    (decisionsPool.get? i).getD "undefined" ∈ decisionsPool := by
  interval_cases i <;> decide

/-- Every pool label is one of the six decision labels. -/
theorem pool_subset_six : ∀ x ∈ decisionsPool, x ∈ sixDecisionLabels := by
  decide

/-- The final decision is always one of the six decision labels. -/
theorem finalDecision_mem_six (trend : String) (hpq : Bool) (rDec : ℚ)
    (h0 : 0 ≤ rDec) (h1 : rDec < 1) :
    finalDecision trend hpq rDec ∈ sixDecisionLabels := by
  unfold finalDecision
  split
  · split <;> decide
  · split
    · split <;> decide
    · exact pool_subset_six _ (poolGet_mem _ (floor_index_lt_five rDec h0 h1))

/-- Evaluation of the decision at the draw one half. -/
theorem finalDecision_up_half : finalDecision "up" true (1 / 2) = "LIKELY" := by
  norm_num [finalDecision]

/-- Evaluation of the decision at the draw zero. -/
theorem finalDecision_up_zero : finalDecision "up" true 0 = "HIGHLY LIKELY" := by
  norm_num [finalDecision]

/-- C1 is false as stated: two runs of the handler on an up-trend price
question that differ only in the decision draw (0.5 versus 0) produce the
distinct labels LIKELY and HIGHLY LIKELY while the mean per-model confidence
of the two runs is identical, so the label is not a function of — and in
particular not chosen by threshold rules on — the mean confidence of the
models. -/
theorem C1_counterexample :
    finalDecision "up" true (1 / 2) = "LIKELY" ∧
    finalDecision "up" true 0 = "HIGHLY LIKELY" ∧
    listMean (((generateVerificationDetails (finalDecision "up" true (1 / 2))
        (confidenceOf 0) 0 0 0 0 0 0).model_responses).map
      (fun m => m.confidence)) =
    listMean (((generateVerificationDetails (finalDecision "up" true 0)
        (confidenceOf 0) 0 0 0 0 0 0).model_responses).map
      (fun m => m.confidence)) := by
  refine ⟨finalDecision_up_half, finalDecision_up_zero, ?_⟩
  simp only [generateVerificationDetails, List.map_cons, List.map_nil]

/-- C1 amended: `final_decision` is chosen by rules on the primary asset's
trend and on whether the query mentions price, with a fresh random draw —
threshold 0.3 on the draw in the up/down price branches and uniform choice
from the five-label pool otherwise — independently of the models'
confidences, and always lands in the six decision labels. -/
theorem C1_amended_decision_rule (trend : String) (hpq : Bool) (rDec : ℚ)
    (h0 : 0 ≤ rDec) (h1 : rDec < 1) :
    (trend = "up" → hpq = true →
      finalDecision trend hpq rDec =
        (if rDec > 3 / 10 then "LIKELY" else "HIGHLY LIKELY")) ∧
    (trend = "down" → hpq = true →
      finalDecision trend hpq rDec =
        (if rDec > 3 / 10 then "UNLIKELY" else "SOMEWHAT LIKELY")) ∧
    (¬ (trend = "up" ∧ hpq = true) → ¬ (trend = "down" ∧ hpq = true) →
      finalDecision trend hpq rDec ∈ decisionsPool) ∧
    finalDecision trend hpq rDec ∈ sixDecisionLabels := by
  refine ⟨?_, ?_, ?_, finalDecision_mem_six trend hpq rDec h0 h1⟩
  · intro ht hq
    simp [finalDecision, ht, hq]
  · intro ht hq
    subst ht
    simp [finalDecision, hq]
  · intro hup hdown
    unfold finalDecision
    rw [if_neg hup, if_neg hdown]
    exact poolGet_mem _ (floor_index_lt_five rDec h0 h1)

/-- Witness for the amended C1 on a stable-trend run at draw one half. -/
theorem C1_amended_decision_rule_witness :
    ("stable" = "up" → true = true →
      finalDecision "stable" true (1 / 2) =
        (if (1 : ℚ) / 2 > 3 / 10 then "LIKELY" else "HIGHLY LIKELY")) ∧
    ("stable" = "down" → true = true →
      finalDecision "stable" true (1 / 2) =
        (if (1 : ℚ) / 2 > 3 / 10 then "UNLIKELY" else "SOMEWHAT LIKELY")) ∧
    (¬ ("stable" = "up" ∧ true = true) → ¬ ("stable" = "down" ∧ true = true) →
      finalDecision "stable" true (1 / 2) ∈ decisionsPool) ∧
    finalDecision "stable" true (1 / 2) ∈ sixDecisionLabels :=
  C1_amended_decision_rule "stable" true (1 / 2) (by norm_num) (by norm_num)

/-- In-range indexing into the comparison predictions always yields one of
the six decision labels, whatever the deciding string is. -/
theorem comparisonPrediction_mem (d : String) (i : ℕ) (hi : i < 6) :
    ((comparisonPredictions d).get? i).getD "undefined" ∈ sixDecisionLabels := by
  unfold comparisonPredictions
  split
  · interval_cases i <;> decide
  · split
    · interval_cases i <;> decide
    · interval_cases i <;> decide

/-- When the incoming decision is one of the six labels, every derived
per-model decision in `model_responses` is again one of the six labels. -/
theorem verificationDecisions_mem (fd : String) (hfd : fd ∈ sixDecisionLabels)
    (c rA r1 r2 r3 r4 r5 : ℚ) :
    ∀ m ∈ (generateVerificationDetails fd c rA r1 r2 r3 r4 r5).model_responses,
      m.decision ∈ sixDecisionLabels := by
  intro m hm
  simp only [generateVerificationDetails, List.mem_cons, List.not_mem_nil,
    or_false] at hm
  fin_cases hfd <;> rcases hm with h | h | h | h | h <;> subst h <;>
    dsimp only <;> decide

/-- C8: the final consensus decision, every per-model prediction of the
model comparison, and every derived per-model decision in `model_responses`
lie in the fixed six-label set. -/
theorem C8_decision_labels (trend : String) (hpq : Bool) (rDec : ℚ)
    (h0 : 0 ≤ rDec) (h1 : rDec < 1) (d : String) (rComp : ℕ → ℚ)
    (c rA r1 r2 r3 r4 r5 : ℚ) :
    finalDecision trend hpq rDec ∈ sixDecisionLabels ∧
    (∀ item ∈ generateModelComparison d rComp,
      item.prediction ∈ sixDecisionLabels) ∧
    (∀ m ∈ (generateVerificationDetails (finalDecision trend hpq rDec) c
        rA r1 r2 r3 r4 r5).model_responses,
      m.decision ∈ sixDecisionLabels) := by
  refine ⟨finalDecision_mem_six trend hpq rDec h0 h1, ?_,
    verificationDecisions_mem _ (finalDecision_mem_six trend hpq rDec h0 h1)
      c rA r1 r2 r3 r4 r5⟩
  intro item hitem
  simp only [generateModelComparison, List.mem_map, List.mem_range] at hitem
  obtain ⟨i, hi, rfl⟩ := hitem
  have hlen : comparisonModelNames.length = 6 := rfl
  exact comparisonPrediction_mem d i (by omega)

/-- Witness for C8 at an up-trend price question with draw one half. -/
theorem C8_decision_labels_witness :
    finalDecision "up" true (1 / 2) ∈ sixDecisionLabels ∧
    (∀ item ∈ generateModelComparison "LIKELY" (fun _ => 1 / 2),
      item.prediction ∈ sixDecisionLabels) ∧
    (∀ m ∈ (generateVerificationDetails (finalDecision "up" true (1 / 2)) 0
        0 0 0 0 0 0).model_responses,
      m.decision ∈ sixDecisionLabels) :=
  C8_decision_labels "up" true (1 / 2) (by norm_num) (by norm_num)
    "LIKELY" (fun _ => 1 / 2) 0 0 0 0 0 0 0

/-! ### Asset extraction (C9) -/

/-- The accumulation loop preserves freedom from duplicates. -/
theorem extractLoop_nodup (query : String) (l : List String) :
    ∀ acc : List String, acc.Nodup → (extractLoop query l acc).Nodup := by
  induction l with
  | nil =>
    intro acc hacc
    simpa [extractLoop] using hacc
  | cons a rest ih =>
    intro acc hacc
    rw [extractLoop]
    split
    · rename_i hcond
      apply ih
      rw [List.nodup_append_comm]
      simp only [List.singleton_append, List.nodup_cons]
      exact ⟨hcond.2, hacc⟩
    · exact ih acc hacc

/-- Membership in the loop result: an element is either already accumulated
or the canonical name of some matched asset of the remaining list. -/
theorem extractLoop_mem (query : String) (l : List String) :
    ∀ (acc : List String) (x : String),
      x ∈ extractLoop query l acc ↔
        x ∈ acc ∨ ∃ a ∈ l, assetMatches a query = true ∧
          mapSymbolToName (a.toLower) = x := by
  induction l with
  | nil =>
    intro acc x
    simp [extractLoop]
  | cons a rest ih =>
    intro acc x
    rw [extractLoop]
    split
    · rename_i hcond
      rw [ih]
      simp only [List.mem_append, List.mem_singleton, List.mem_cons,
        List.not_mem_nil, or_false]
      constructor
      · rintro ((hx | hx) | ⟨b, hb, hm, he⟩)
        · exact Or.inl hx
        · exact Or.inr ⟨a, Or.inl rfl, hcond.1, hx.symm⟩
        · exact Or.inr ⟨b, Or.inr hb, hm, he⟩
      · rintro (hx | ⟨b, hb | hb, hm, he⟩)
        · exact Or.inl (Or.inl hx)
        · subst hb
          exact Or.inl (Or.inr he.symm)
        · exact Or.inr ⟨b, hb, hm, he⟩
    · rename_i hcond
      rw [ih]
      simp only [List.mem_cons]
      constructor
      · rintro (hx | ⟨b, hb, hm, he⟩)
        · exact Or.inl hx
        · exact Or.inr ⟨b, Or.inr hb, hm, he⟩
      · rintro (hx | ⟨b, hb | hb, hm, he⟩)
        · exact Or.inl hx
        · subst hb
          rcases Decidable.em (mapSymbolToName (b.toLower) ∈ acc) with hin | hout
          · exact Or.inl (he ▸ hin)
          · exact absurd ⟨hm, hout⟩ hcond
        · exact Or.inr ⟨b, hb, hm, he⟩

/-- C9: `extractAssetsFromQuery` returns a duplicate-free list whose members
are exactly the canonical names (via `mapSymbolToName`) of the known assets
matched in the query — matching on the lowercased query, with a
standalone-word requirement for asset strings of length at most 4 (see
`assetMatches`), so a symbol and its full name together contribute their one
canonical name once. -/
theorem C9_extractAssets (query : String) :
    (extractAssetsFromQuery query).Nodup ∧
    (∀ x, x ∈ extractAssetsFromQuery query ↔
      ∃ a ∈ commonAssets, assetMatches a query = true ∧
        mapSymbolToName (a.toLower) = x) ∧
    ∀ x ∈ extractAssetsFromQuery query,
      x ∈ commonAssets.map (fun a => mapSymbolToName (a.toLower)) := by
  refine ⟨extractLoop_nodup query commonAssets [] (List.nodup_nil), ?_, ?_⟩
  · intro x
    rw [extractAssetsFromQuery, extractLoop_mem]
    simp
  · intro x hx
    rw [extractAssetsFromQuery, extractLoop_mem] at hx
    rcases hx with hx | ⟨a, ha, _, he⟩
    · simp at hx
    · exact he ▸ List.mem_map_of_mem _ ha

/-! ### Market data feeds (C10) -/

/-- The success-path trend is always one of the three labels. -/
theorem trendFromHistory_mem (hp : List PricePoint) :
    trendFromHistory hp = "up" ∨ trendFromHistory hp = "down" ∨
      trendFromHistory hp = "stable" := by
  simp only [trendFromHistory]
  split_ifs <;> simp

/-- The fallback feed's trend is always one of the three labels. -/
theorem fallback_trend_mem (a : String) (now : ℕ) (rnd : ℕ → ℚ) :
    (createFallbackDataFeed a now rnd).trend = "up" ∨
    (createFallbackDataFeed a now rnd).trend = "down" ∨
    (createFallbackDataFeed a now rnd).trend = "stable" := by
  simp only [createFallbackDataFeed]
  split_ifs <;> simp

/-- Both branches of the per-asset step produce a feed carrying the
capitalised asset name and the lowercased asset id. -/
theorem branch_name_id (env : AssetEnv) (now : ℕ) (a : String) :
    ((if env.throws then createFallbackDataFeed a now env.fallbackRnd
      else processAsset env now a).name,
     (if env.throws then createFallbackDataFeed a now env.fallbackRnd
      else processAsset env now a).feed_id) = (capitalizeName a, a.toLower) := by
  split <;> simp [createFallbackDataFeed, processAsset]

/-- C10: for a non-empty asset list, `getMarketDataFeeds` returns exactly one
feed per requested asset in the same order (per-asset failures are replaced
by fallback feeds rather than dropped), and every returned trend is `up`,
`down` or `stable`. -/
theorem C10_market_data_feeds (envs : String → AssetEnv) (outerThrows : Bool)
    (now : ℕ) (assets : List String) (hne : assets ≠ []) :
    (getMarketDataFeeds envs outerThrows now assets).length = assets.length ∧
    (∀ i : ℕ, ((getMarketDataFeeds envs outerThrows now assets).get? i).map
        (fun f => (f.name, f.feed_id)) =
      (assets.get? i).map (fun a => (capitalizeName a, a.toLower))) ∧
    ∀ f ∈ getMarketDataFeeds envs outerThrows now assets,
      f.trend = "up" ∨ f.trend = "down" ∨ f.trend = "stable" := by
  unfold getMarketDataFeeds
  split
  · refine ⟨List.length_map _ _, ?_, ?_⟩
    · intro i
      rw [List.get?_map, Option.map_map]
      congr 1
    · intro f hf
      rcases List.mem_map.mp hf with ⟨a, _, rfl⟩
      exact fallback_trend_mem a now ((envs a).fallbackRnd)
  · refine ⟨List.length_map _ _, ?_, ?_⟩
    · intro i
      rw [List.get?_map, Option.map_map]
      congr 1
      funext a
      exact branch_name_id (envs a) now a
    · intro f hf
      rcases List.mem_map.mp hf with ⟨a, _, rfl⟩
      split
      · exact fallback_trend_mem a now ((envs a).fallbackRnd)
      · simp only [processAsset]
        exact trendFromHistory_mem _

/-- Witness for C10 on the two-asset list with per-asset throws on one of
them. -/
theorem C10_market_data_feeds_witness :
    (["bitcoin", "ethereum"] : List String) ≠ [] ∧
    ((getMarketDataFeeds
        (fun a => ⟨.error "down", .error "down", fun _ => 1 / 2, fun _ => 1 / 2,
          a = "bitcoin"⟩) false 0 ["bitcoin", "ethereum"]).length =
      (["bitcoin", "ethereum"] : List String).length ∧
    (∀ i : ℕ, ((getMarketDataFeeds
        (fun a => ⟨.error "down", .error "down", fun _ => 1 / 2, fun _ => 1 / 2,
          a = "bitcoin"⟩) false 0 ["bitcoin", "ethereum"]).get? i).map
        (fun f => (f.name, f.feed_id)) =
      ((["bitcoin", "ethereum"] : List String).get? i).map
        (fun a => (capitalizeName a, a.toLower))) ∧
    ∀ f ∈ getMarketDataFeeds
        (fun a => ⟨.error "down", .error "down", fun _ => 1 / 2, fun _ => 1 / 2,
          a = "bitcoin"⟩) false 0 ["bitcoin", "ethereum"],
      f.trend = "up" ∨ f.trend = "down" ∨ f.trend = "stable") :=
  ⟨by decide,
    C10_market_data_feeds
      (fun a => ⟨.error "down", .error "down", fun _ => 1 / 2, fun _ => 1 / 2,
        a = "bitcoin"⟩) false 0 ["bitcoin", "ethereum"] (by decide)⟩
